import Mathlib

/-!
Verification of the PharmAI iterative code-generation REPL
(`dspy_repl.py`, `src/tools/dspy_repl.py`, `getting_started/llm_feedback.py`).

The Python source is shallowly embedded: pure helpers become Lean functions
over `String`/`List`; the external collaborators (LLM generator, LLM
evaluator, `subprocess.run`, the file system) become explicit oracle
parameters or file-state values; Python exceptions become `Except`.

String primitives: the Python string operations used by the source
(`str.strip`, `str.lower`, `str.split`, `'\n'.join`, `startswith`,
substring membership `in`) are modelled structurally over `List Char`
so that all definitions compute by kernel reduction.  Python's default
`strip`/`split` treat a slightly larger whitespace class (`\x0b`, `\f`)
than `Char.isWhitespace`; no claim depends on those characters.
-/

/-- Python `str.strip()`: drop whitespace from both ends. -/
def pyStrip (s : String) : String :=
  String.mk (((s.toList.dropWhile Char.isWhitespace).reverse.dropWhile Char.isWhitespace).reverse)

/-- Python `str.lower()` (ASCII case fold, which is all the source uses). -/
def pyLower (s : String) : String :=
  String.mk (s.toList.map Char.toLower)

/-- Python `s.startswith(p)`. -/
def strStartsWith (s p : String) : Bool :=
  p.toList.isPrefixOf s.toList

/-- Helper for `strContainsSub`: is `needle` a contiguous run inside the
haystack (first argument)? -/
def listContainsSub : List Char → List Char → Bool
  | [], needle => needle.isEmpty
  | c :: cs, needle => needle.isPrefixOf (c :: cs) || listContainsSub cs needle

/-- Python substring membership `p in s`. -/
def strContainsSub (s p : String) : Bool :=
  listContainsSub s.toList p.toList

/-- Helper for `splitLines`. -/
def splitLinesAux : List Char → List Char → List (List Char)
  | [], acc => [acc.reverse]
  | c :: cs, acc =>
    if c = '\n' then acc.reverse :: splitLinesAux cs []
    else splitLinesAux cs (c :: acc)

/-- Python `s.split('\n')`: split at every newline, keeping empty pieces. -/
def splitLines (s : String) : List String :=
  (splitLinesAux s.toList []).map String.mk

/-- Helper for `pySplitWS`. -/
def splitWSAux : List Char → List Char → List (List Char)
  | [], acc => if acc.isEmpty then [] else [acc.reverse]
  | c :: cs, acc =>
    if c.isWhitespace then
      if acc.isEmpty then splitWSAux cs []
      else acc.reverse :: splitWSAux cs []
    else splitWSAux cs (c :: acc)

/-- Python `s.split()` with no argument: split on whitespace runs, dropping
empty pieces. -/
def pySplitWS (s : String) : List String :=
  (splitWSAux s.toList []).map String.mk

/-- Python `'\n'.join(lines)`. -/
def joinLines : List String → String
  | [] => ""
  | [l] => l
  | l :: l' :: ls => l ++ "\n" ++ joinLines (l' :: ls)

/-! ## Data model (`dspy_repl.py` TypedDicts and record shapes) -/

/-- Schema `Example` (TypedDict): a stored (task, language, reasoning, code) tuple. -/
structure CodeExample where
  task : String
  language : String
  reasoning : String
  code : String
deriving Repr, DecidableEq

/-- Schema `ExecutionResult` (TypedDict). -/
structure ExecutionResult where
  success : Bool
  stdout : String
  stderr : String
  returncode : Int
deriving Repr, DecidableEq

/-- The `(reasoning, code)` output of the `CodeGenerator` signature. -/
structure GenResponse where
  reasoning : String
  code : String
deriving Repr, DecidableEq

/-- The output of the `GoalEvaluator` signature. -/
structure Evaluation where
  evaluation_reasoning : String
  goal_achieved : Bool
deriving Repr, DecidableEq

/-- What `subprocess.run(cmd, capture_output=True)` yields on completion. -/
structure RunOutcome where
  returncode : Int
  stdout : String
  stderr : String
deriving Repr, DecidableEq

/-- Oracle for `subprocess.run`: maps the argv list to either a completed
process (`Except.ok`) or a raised exception (`Except.error`, carrying the
exception text `str(e)`). -/
abbrev Runner := List String → Except String RunOutcome

/-- Oracle for the generation LLM (`dspy.ChainOfThought(CodeGenerator)`),
indexed by the iteration number of the attempt it answers, then applied
to (task, language, context) exactly as in the source. -/
abbrev GenOracle := Nat → String → String → String → GenResponse

/-- Oracle for the evaluation LLM (`dspy.ChainOfThought(GoalEvaluator)`),
indexed by the iteration number, then applied to
(task, language, code, execution result). -/
abbrev EvalOracle := Nat → String → String → String → ExecutionResult → Evaluation

/-- The JSON object written by `save_session_state`. -/
structure SessionData where
  task : String
  language : String
  current_iteration : Nat
  max_iterations : Nat
  context : String
  generator_state : String
  evaluator_state : String
  examples : List CodeExample
deriving Repr, DecidableEq

/-- State of a JSON file on disk, as far as the loaders distinguish it:
absent, unparseable, or holding a value. -/
inductive FileState (α : Type) where
  | missing
  | corrupt
  | valid (a : α)
deriving Repr, DecidableEq

/-! ## Example store and retriever (`load_examples`, `get_relevant_examples`,
`format_examples_for_context`) -/

/-- Source `load_examples`: `try: json.load(...) except (FileNotFoundError,
JSONDecodeError): return []`. -/
def load_examples : FileState (List CodeExample) → List CodeExample
  | .missing => []
  | .corrupt => []
  | .valid l => l

/-- Source `get_relevant_examples`: keep examples whose language matches
case-insensitively and whose lowered task text contains some
whitespace-delimited word of the lowered query task as a substring
(Python `word in ex['task'].lower()`), then truncate to `max_examples`. -/
def get_relevant_examples (examples : List CodeExample) (task language : String)
    (max_examples : Nat) : List CodeExample :=
  let task_words := pySplitWS (pyLower task)
  let relevant := examples.filter (fun ex =>
    (pyLower ex.language == pyLower language)
      && task_words.any (fun word => strContainsSub (pyLower ex.task) word))
  relevant.take max_examples

/-- Source `format_examples_for_context`. -/
def format_examples_for_context (examples : List CodeExample) : String :=
  if examples.isEmpty then ""
  else
    let parts := examples.enum.foldr (fun p acc =>
      ("\nExample " ++ toString (p.1 + 1) ++ ":")
        :: ("Task: " ++ p.2.task)
        :: ("Reasoning: " ++ p.2.reasoning)
        :: ("Code:\n```" ++ p.2.language ++ "\n" ++ p.2.code ++ "\n```")
        :: acc) []
    joinLines ("\n\nRelevant examples:" :: parts)

/-- Rendering of the spec's retriever contract, for comparison with the
code: "keeps examples whose task text shares at least one case-insensitive
whitespace-delimited token with the query task". -/
def spec_sharesToken (a b : String) : Bool :=
  (pySplitWS (pyLower a)).any (fun w => (pySplitWS (pyLower b)).contains w)

/-! ## Code sanitizer (`clean_code` in `dspy_repl.py`) -/

/-- The fence spellings removed by the filter pass of `clean_code`. -/
def fence_markers (language : String) : List String :=
  ["```", "```python", "```r", "```" ++ pyLower language]

/-- Source `clean_code`: strip the whole text, drop an opening fence line, drop a
closing ```` ``` ```` line, then drop any remaining standalone fence lines. -/
def clean_code (code language : String) : String :=
  let lines := splitLines (pyStrip code)
  let lines := match lines with
    | [] => []
    | l0 :: rest => if strStartsWith (pyStrip l0) "```" then rest else l0 :: rest
  let lines := match lines.getLast? with
    | some ll => if pyStrip ll = "```" then lines.dropLast else lines
    | none => lines
  let cleaned_lines := lines.filter (fun line =>
    !((fence_markers language).contains (pyStrip line)))
  joinLines cleaned_lines

/-! ## Code sanitizer, `src/tools/dspy_repl.py` variant (`clean_code` there,
named `tools_clean_code` here to keep both) -/

/-- ASCII apostrophe, kept out of string literals. -/
def apostrophe : String := (Char.ofNat 39).toString

/-- The prose patterns scanned for in the bottom-up trim
(first `startswith` tuple). -/
def prose_markers : List String :=
  ["Note:", "Key ", "- ", "* ", "This ", "The ",
   "You" ++ apostrophe ++ "ll need", "Install", "pip install"]

/-- The prose patterns checked on the previous line
(second `startswith` tuple). -/
def prose_markers_prev : List String :=
  ["Note:", "Key ", "- ", "You" ++ apostrophe ++ "ll need", "Install"]

/-- Python `any(line.startswith(m) for m in markers)`. -/
def startsWithAny (line : String) (markers : List String) : Bool :=
  markers.any (fun m => strStartsWith line m)

/-- The `for i in range(len(lines) - 1, -1, -1)` scan of the tools-variant
`clean_code`: `tools_scanFrom lines (i+1) end_idx` processes index `i` and
counts down; `end_idx` is the running cut point, and hitting real code
breaks out returning the current `end_idx`. -/
def tools_scanFrom (lines : List String) : Nat → Nat → Nat
  | 0, end_idx => end_idx
  | i + 1, end_idx =>
    let line := pyStrip (lines.getD i "")
    if line = "```" || strStartsWith line "```" then
      tools_scanFrom lines i i
    else if startsWithAny line prose_markers
        || ((line == "") && decide (0 < i)
            && startsWithAny (pyStrip (lines.getD (i - 1) "")) prose_markers_prev) then
      tools_scanFrom lines i i
    else if (line != "") && !(strStartsWith line "#") then
      end_idx
    else
      tools_scanFrom lines i end_idx

/-- Source `clean_code` of `src/tools/dspy_repl.py`: drop an opening fence, then
trim trailing fences/prose found by the bottom-up scan. -/
def tools_clean_code (code : String) : String :=
  let lines := splitLines (pyStrip code)
  let lines := match lines with
    | [] => []
    | l0 :: rest => if strStartsWith (pyStrip l0) "```" then rest else l0 :: rest
  let end_idx := tools_scanFrom lines lines.length lines.length
  joinLines (lines.take end_idx)

/-! ## Script executor (`write_script`, `execute_script`, `execute_code`) -/

/-- Models `sys.executable`. -/
def sys_executable : String := "python3"

/-- Source `write_script`: clean the code, pick the extension from the language
(raising `ValueError` for anything else, modelled by `Except.error` with
`str(e)`), write a temp file and return its path (renamed to a
`saved_script_` path when `save_script` is set).  The file contents are
not observable to the claims; the path and the error are. -/
def write_script (code language : String) (save_script : Bool) : Except String String :=
  let _cleaned := clean_code code language
  if pyLower language = "python" then
    Except.ok (if save_script then "saved_script_tmp.py" else "tmp_script.py")
  else if pyLower language = "r" then
    Except.ok (if save_script then "saved_script_tmp.R" else "tmp_script.R")
  else
    Except.error ("Unsupported language: " ++ language)

/-- Source `execute_script`: choose the interpreter from the language tag, run it
via the subprocess oracle, and package stdout/stderr/exit code; an
unrecognized language returns the structured failure without consulting
the oracle.  A raised exception inside `subprocess.run` propagates
(`Except.error`). -/
def execute_script (runner : Runner) (script_path language : String) :
    Except String ExecutionResult :=
  if pyLower language = "python" then
    match runner [sys_executable, script_path] with
    | .error e => .error e
    | .ok r =>
      .ok { success := r.returncode == 0, stdout := r.stdout,
            stderr := r.stderr, returncode := r.returncode }
  else if pyLower language = "r" then
    match runner ["Rscript", script_path] with
    | .error e => .error e
    | .ok r =>
      .ok { success := r.returncode == 0, stdout := r.stdout,
            stderr := r.stderr, returncode := r.returncode }
  else
    .ok { success := false, stdout := "",
          stderr := "Unsupported language: " ++ language, returncode := -1 }

/-- Source `execute_code`: write then execute, converting any raised exception into
a well-formed failure `ExecutionResult` (the `except Exception` block). -/
def execute_code (runner : Runner) (code language : String) (save_script : Bool) :
    ExecutionResult :=
  match write_script code language save_script with
  | .error e =>
    { success := false, stdout := "", stderr := "Execution error: " ++ e,
      returncode := -1 }
  | .ok script_path =>
    match execute_script runner script_path language with
    | .error e =>
      { success := false, stdout := "", stderr := "Execution error: " ++ e,
        returncode := -1 }
    | .ok result => result

/-- Source `execute_code` of `src/tools/dspy_repl.py`: no language validation at
all — any tag other than python gets the `.R` suffix and the `Rscript`
interpreter. -/
def tools_execute_code (runner : Runner) (code language : String)
    (save_only : Bool) (script_name : Option String) : ExecutionResult :=
  let _cleaned := tools_clean_code code
  let suffix := if pyLower language = "python" then ".py" else ".R"
  if save_only then
    let _save_path := (script_name.getD "saved_script") ++ suffix
    { success := true, stdout := "", stderr := "", returncode := 0 }
  else
    let script_path := "tmp_script" ++ suffix
    let cmd := if pyLower language = "python" then [sys_executable, script_path]
               else ["Rscript", script_path]
    match runner cmd with
    | .error e =>
      { success := false, stdout := "", stderr := "Execution error: " ++ e,
        returncode := -1 }
    | .ok r =>
      { success := r.returncode == 0, stdout := r.stdout, stderr := r.stderr,
        returncode := r.returncode }

/-! ## Retry controller (`repl_loop`, `evaluate_goal`, session store,
`resume_repl_loop`) -/

/-- Source `evaluate_goal`: forwards to the evaluation oracle with
(task, language, code, execution_result), as the source does after
serializing the result. -/
def evaluate_goal (ev : EvalOracle) (iteration : Nat) (task code : String)
    (result : ExecutionResult) (language : String) : Evaluation :=
  ev iteration task language code result

/-- Models `json.dumps(result, indent=2)` as used when folding a failed
attempt into the next context (string escaping elided; no claim inspects
this text). -/
def dumpsExecutionResult (r : ExecutionResult) : String :=
  "\x7b\n  \"success\": " ++ (if r.success then "true" else "false")
    ++ ",\n  \"stdout\": \"" ++ r.stdout
    ++ "\",\n  \"stderr\": \"" ++ r.stderr
    ++ "\",\n  \"returncode\": " ++ toString r.returncode ++ "\n\x7d"

/-- The replacement context built after a failed attempt. -/
def next_context (response : GenResponse) (result : ExecutionResult)
    (evaluation : Evaluation) : String :=
  "Previous attempt failed. Code: " ++ response.code
    ++ "\nResult: " ++ dumpsExecutionResult result
    ++ "\nFeedback: " ++ evaluation.evaluation_reasoning

/-- The `dump_state()` of a freshly constructed predictor, which is what
`repl_loop` saves (it rebuilds `generator`/`evaluator` just before
`save_session_state`). -/
def fresh_predictor_state : String := "fresh"

/-- Outcome of `repl_loop` (the `dspy.Prediction` it returns), extended
with the observable interaction record: `genIters` lists the iteration
numbers at which the generation oracle was invoked, in call order, and
`session` is the record handed to `save_session_state` (if any). -/
structure ReplOutcome where
  success : Bool
  iterations : Nat
  reasoning : String
  code : String
  result : ExecutionResult
  genIters : List Nat
  session : Option SessionData
deriving Repr, DecidableEq

/-- The body of `for iteration in range(start_iteration, max_iterations + 1)`
together with the code after the loop.  `fuel` is the number of loop
indices still to run (`max_iterations + 1 - iter` at every call from
`repl_loop`), `iter` the current iteration number, `calls` the generator
invocations so far, and `last` the (response, result, evaluation) of the
previous (failed) iteration — `none` if no iteration has run, in which
case the code after the loop reads the unassigned `response` and raises
`NameError`. -/
def repl_go (gen : GenOracle) (ev : EvalOracle) (runner : Runner)
    (task language : String) (max_iterations start_iteration : Nat)
    (examples : Option (List CodeExample)) :
    Nat → Nat → String → List Nat →
    Option (GenResponse × ExecutionResult × Evaluation) →
    Except String ReplOutcome
  | 0, _iter, context, calls, last =>
    match last with
    | none => .error "NameError: name response is not defined"
    | some (response, result, _evaluation) =>
      let _saved := execute_code runner response.code language true
      let session : Option SessionData :=
        if start_iteration = 1 then
          some { task := task, language := language,
                 current_iteration := max_iterations + 1,
                 max_iterations := max_iterations + 5,
                 context := context,
                 generator_state := fresh_predictor_state,
                 evaluator_state := fresh_predictor_state,
                 examples := examples.getD [] }
        else none
      .ok { success := false, iterations := max_iterations,
            reasoning := response.reasoning, code := response.code,
            result := result, genIters := calls, session := session }
  | fuel + 1, iter, context, calls, _last =>
    let response := gen iter task language context
    let result := execute_code runner response.code language false
    let evaluation := evaluate_goal ev iter task response.code result language
    if evaluation.goal_achieved then
      let _saved := execute_code runner response.code language true
      .ok { success := true, iterations := iter,
            reasoning := response.reasoning, code := response.code,
            result := result, genIters := calls ++ [iter], session := none }
    else
      repl_go gen ev runner task language max_iterations start_iteration examples
        fuel (iter + 1) (next_context response result evaluation)
        (calls ++ [iter]) (some (response, result, evaluation))

/-- The context `repl_loop` enters the loop with.  Python truthiness is
preserved: `initial_context=None` or `""` falls back to the default
context, and `examples=None` or `[]` skips example retrieval. -/
def initial_context_of (task language : String)
    (examples : Option (List CodeExample)) (initial_context : Option String) :
    String :=
  let default_context : String :=
    let base := "This is the first attempt."
    match examples with
    | some exs =>
      if exs.isEmpty then base
      else base ++ format_examples_for_context
        (get_relevant_examples exs task language 2)
    | none => base
  match initial_context with
  | some c => if c = "" then default_context else c
  | none => default_context

/-- Source `repl_loop`. -/
def repl_loop (gen : GenOracle) (ev : EvalOracle) (runner : Runner)
    (task language : String) (max_iterations : Nat)
    (examples : Option (List CodeExample)) (start_iteration : Nat)
    (initial_context : Option String) : Except String ReplOutcome :=
  repl_go gen ev runner task language max_iterations start_iteration examples
    (max_iterations + 1 - start_iteration) start_iteration
    (initial_context_of task language examples initial_context) [] none

/-- Source `save_session_state`: writes the single-slot session file. -/
def save_session_state (task language : String) (iteration max_iterations : Nat)
    (context : String) (generator_state evaluator_state : String)
    (examples : List CodeExample) : FileState SessionData :=
  FileState.valid
    { task := task, language := language, current_iteration := iteration,
      max_iterations := max_iterations, context := context,
      generator_state := generator_state, evaluator_state := evaluator_state,
      examples := examples }

/-- Source `load_session_state`: missing file → `None`; corrupt file → warning and
`None` (second component records whether the warning was printed). -/
def load_session_state : FileState SessionData → Option SessionData × Bool
  | .missing => (none, false)
  | .corrupt => (none, true)
  | .valid s => (some s, false)

/-- Source `resume_repl_loop`: rebuild the loop from a loaded session, starting at
the stored iteration with the stored context, budget and examples. -/
def resume_repl_loop (gen : GenOracle) (ev : EvalOracle) (runner : Runner)
    (session_data : SessionData) : Except String ReplOutcome :=
  repl_loop gen ev runner session_data.task session_data.language
    session_data.max_iterations (some session_data.examples)
    session_data.current_iteration (some session_data.context)

/-! ## `run_r_script` (`getting_started/llm_feedback.py`) -/

/-- The `task` object consumed by `run_r_script` (only `task_name` is used). -/
structure RTask where
  task_name : String
deriving Repr, DecidableEq

/-- The structured LLM response consumed by `run_r_script`. -/
structure ScriptResponse where
  thoughts : String
  script : String
  status_complete : Bool
deriving Repr, DecidableEq

/-- What `subprocess.run(cmd, ..., timeout=180)` can do: complete, or kill
the child and raise `TimeoutExpired`. -/
inductive TimeoutRun where
  | completed (returncode : Int) (stdout : String) (stderr : String)
  | timedOut
deriving Repr, DecidableEq

/-- Oracle for `subprocess.run` with a timeout argument (argv, seconds). -/
abbrev TimeoutRunner := List String → Nat → TimeoutRun

/-- Source `run_r_script`: write the script, run `Rscript` with `timeout=180`, and
format stdout or stderr.  The function has no `try`/`except`: a
`TimeoutExpired` raised by `subprocess.run` propagates (`Except.error`). -/
def run_r_script (runner : TimeoutRunner) (task : RTask)
    (response : ScriptResponse) : Except String String :=
  let script_path := (task.task_name.replace " " "_") ++ "_analysis.R"
  let _written := response.script
  match runner ["Rscript", script_path] 180 with
  | .completed rc out err =>
    .ok (if rc == 0 then "STDOUT:\n" ++ out else "STDERR:\n" ++ err)
  | .timedOut =>
    .error "subprocess.TimeoutExpired: Rscript timed out after 180 seconds"

/-! ## Concrete oracles used by counterexamples and witnesses -/

/-- A generation oracle stub. -/
def gen0 : GenOracle := fun _ _ _ _ => { reasoning := "r", code := "print(1)" }

/-- An evaluation oracle that never reports success. -/
def ev_never : EvalOracle := fun _ _ _ _ _ =>
  { evaluation_reasoning := "not yet", goal_achieved := false }

/-- An evaluation oracle that first (and only) reports success on
iteration `n`. -/
def ev_at (n : Nat) : EvalOracle := fun i _ _ _ _ =>
  { evaluation_reasoning := "", goal_achieved := i == n }

/-- A subprocess oracle whose processes exit 0. -/
def runner_rc0 : Runner := fun _ =>
  Except.ok { returncode := 0, stdout := "ok", stderr := "" }

/-- A subprocess oracle whose processes exit 1. -/
def runner_rc1 : Runner := fun _ =>
  Except.ok { returncode := 1, stdout := "", stderr := "boom" }

/-- A subprocess oracle that always raises. -/
def runner_raise : Runner := fun _ => Except.error "OSError"

/-- A timed subprocess oracle that always times out. -/
def runner_timeout : TimeoutRunner := fun _ _ => TimeoutRun.timedOut

deriving instance DecidableEq for Except

/-- The example used by the claim-3 counterexample. -/
def exConcat : CodeExample :=
  { task := "concatenate strings", language := "python",
    reasoning := "", code := "" }

/-! ## Loop lemmas -/

/-- Unfolding `repl_go` for a remaining-range of zero when no iteration ran. -/
theorem repl_go_zero_none_eq (gen : GenOracle) (ev : EvalOracle) (runner : Runner)
    (task language : String) (maxI startI : Nat) (exs : Option (List CodeExample))
    (iter : Nat) (context : String) (calls : List Nat) :
    repl_go gen ev runner task language maxI startI exs 0 iter context calls none
      = Except.error "NameError: name response is not defined" := rfl

/-- Unfolding `repl_go` for a remaining-range of zero after a failed
iteration. -/
theorem repl_go_zero_some_eq (gen : GenOracle) (ev : EvalOracle) (runner : Runner)
    (task language : String) (maxI startI : Nat) (exs : Option (List CodeExample))
    (iter : Nat) (context : String) (calls : List Nat)
    (response : GenResponse) (result : ExecutionResult) (evaluation : Evaluation) :
    repl_go gen ev runner task language maxI startI exs 0 iter context calls
        (some (response, result, evaluation))
      = Except.ok
        { success := false, iterations := maxI,
          reasoning := response.reasoning, code := response.code,
          result := result, genIters := calls,
          session :=
            if startI = 1 then
              some { task := task, language := language,
                     current_iteration := maxI + 1, max_iterations := maxI + 5,
                     context := context,
                     generator_state := fresh_predictor_state,
                     evaluator_state := fresh_predictor_state,
                     examples := exs.getD [] }
            else none } := rfl

/-- Unfolding one loop iteration of `repl_go` (lets and `evaluate_goal`
expanded). -/
theorem repl_go_succ_eq (gen : GenOracle) (ev : EvalOracle) (runner : Runner)
    (task language : String) (maxI startI : Nat) (exs : Option (List CodeExample))
    (fuel iter : Nat) (context : String) (calls : List Nat)
    (last : Option (GenResponse × ExecutionResult × Evaluation)) :
    repl_go gen ev runner task language maxI startI exs (fuel + 1) iter context calls last
      = (if (ev iter task language (gen iter task language context).code
              (execute_code runner (gen iter task language context).code language
                false)).goal_achieved then
           Except.ok
             { success := true, iterations := iter,
               reasoning := (gen iter task language context).reasoning,
               code := (gen iter task language context).code,
               result := execute_code runner (gen iter task language context).code
                 language false,
               genIters := calls ++ [iter], session := none }
         else
           repl_go gen ev runner task language maxI startI exs fuel (iter + 1)
             (next_context (gen iter task language context)
               (execute_code runner (gen iter task language context).code language false)
               (ev iter task language (gen iter task language context).code
                 (execute_code runner (gen iter task language context).code language false)))
             (calls ++ [iter])
             (some ((gen iter task language context),
               (execute_code runner (gen iter task language context).code language false),
               (ev iter task language (gen iter task language context).code
                 (execute_code runner (gen iter task language context).code language
                   false))))) := rfl

/-- Splitting one leading index off a contiguous iteration trace. -/
theorem append_range'_consume (calls : List Nat) (iter k : Nat) :
    calls ++ List.range' iter (k + 1) = (calls ++ [iter]) ++ List.range' (iter + 1) k := by
  rw [List.append_assoc]; rfl

/-- If the evaluation oracle rejects every attempt before `N` and accepts
every attempt at `N`, the loop stops at `N` with a success outcome and a
generation trace running exactly up to `N`. -/
theorem repl_go_success_at (gen : GenOracle) (ev : EvalOracle) (runner : Runner)
    (task language : String) (maxI startI : Nat) (exs : Option (List CodeExample)) (N : Nat)
    (H1 : ∀ i, i < N → ∀ c r, (ev i task language c r).goal_achieved = false)
    (H2 : ∀ c r, (ev N task language c r).goal_achieved = true) :
    ∀ fuel iter context calls last, iter ≤ N → N < iter + fuel →
      ∃ out, repl_go gen ev runner task language maxI startI exs fuel iter context calls last
          = Except.ok out
        ∧ out.success = true ∧ out.iterations = N
        ∧ out.genIters = calls ++ List.range' iter (N + 1 - iter) := by
  intro fuel
  induction fuel with
  | zero => intro iter context calls last h1 h2; omega
  | succ fuel ih =>
    intro iter context calls last h1 h2
    rw [repl_go_succ_eq]
    set response := gen iter task language context with hresp
    set result := execute_code runner response.code language false with hres
    set evaln := ev iter task language response.code result with heval
    by_cases hiN : iter = N
    · subst hiN
      have hok : evaln.goal_achieved = true := by
        rw [heval]; exact H2 response.code result
      rw [hok, if_pos rfl]
      have h1eq : iter + 1 - iter = 1 := by omega
      exact ⟨_, rfl, rfl, rfl, by rw [h1eq]; rfl⟩
    · have hlt : iter < N := Nat.lt_of_le_of_ne h1 hiN
      have hfail : evaln.goal_achieved = false := by
        rw [heval]; exact H1 iter hlt response.code result
      rw [hfail, if_neg Bool.false_ne_true]
      have harith : N + 1 - iter = (N + 1 - (iter + 1)) + 1 := by omega
      rw [harith, append_range'_consume]
      exact ih (iter + 1) (next_context response result evaln) (calls ++ [iter])
        (some (response, result, evaln)) (by omega) (by omega)

/-- If the evaluation oracle never reports success, the loop exhausts its
range, reports `iterations = max_iterations`, and (when started from
iteration 1) hands `save_session_state` a record with
`current_iteration = max_iterations + 1` and
`max_iterations` extended by 5. -/
theorem repl_go_exhausts (gen : GenOracle) (ev : EvalOracle) (runner : Runner)
    (task language : String) (maxI startI : Nat) (exs : Option (List CodeExample))
    (H : ∀ i c r, (ev i task language c r).goal_achieved = false) :
    ∀ fuel iter context calls last,
      ∃ out, repl_go gen ev runner task language maxI startI exs (fuel + 1) iter context calls last
          = Except.ok out
        ∧ out.success = false ∧ out.iterations = maxI
        ∧ out.genIters = calls ++ List.range' iter (fuel + 1)
        ∧ (startI = 1 → ∃ s, out.session = some s
            ∧ s.task = task ∧ s.language = language
            ∧ s.current_iteration = maxI + 1 ∧ s.max_iterations = maxI + 5
            ∧ s.examples = exs.getD [])
        ∧ (startI ≠ 1 → out.session = none) := by
  intro fuel
  induction fuel with
  | zero =>
    intro iter context calls last
    rw [repl_go_succ_eq]
    set response := gen iter task language context with hresp
    set result := execute_code runner response.code language false with hres
    set evaln := ev iter task language response.code result with heval
    have hfail : evaln.goal_achieved = false := by
      rw [heval]; exact H iter response.code result
    rw [hfail, if_neg Bool.false_ne_true, repl_go_zero_some_eq]
    refine ⟨_, rfl, rfl, rfl, rfl, ?_, ?_⟩
    · intro h; simp only [if_pos h]; exact ⟨_, rfl, rfl, rfl, rfl, rfl, rfl⟩
    · intro h; simp only [if_neg h]
  | succ fuel ih =>
    intro iter context calls last
    rw [repl_go_succ_eq]
    set response := gen iter task language context with hresp
    set result := execute_code runner response.code language false with hres
    set evaln := ev iter task language response.code result with heval
    have hfail : evaln.goal_achieved = false := by
      rw [heval]; exact H iter response.code result
    rw [hfail, if_neg Bool.false_ne_true]
    rw [append_range'_consume]
    exact ih (iter + 1) (next_context response result evaln) (calls ++ [iter])
      (some (response, result, evaln))

/-- Whenever at least one loop index remains, the loop returns an outcome
(never the `NameError`), and its generation trace extends `calls` by a
nonempty contiguous range starting at the entry iteration. -/
theorem repl_go_runs (gen : GenOracle) (ev : EvalOracle) (runner : Runner)
    (task language : String) (maxI startI : Nat) (exs : Option (List CodeExample)) :
    ∀ fuel iter context calls last,
      ∃ out k, repl_go gen ev runner task language maxI startI exs (fuel + 1) iter context calls last
          = Except.ok out
        ∧ 1 ≤ k ∧ out.genIters = calls ++ List.range' iter k := by
  intro fuel
  induction fuel with
  | zero =>
    intro iter context calls last
    rw [repl_go_succ_eq]
    set response := gen iter task language context with hresp
    set result := execute_code runner response.code language false with hres
    set evaln := ev iter task language response.code result with heval
    by_cases hc : evaln.goal_achieved = true
    · rw [hc, if_pos rfl]
      exact ⟨_, 1, rfl, Nat.le_refl 1, rfl⟩
    · rw [Bool.not_eq_true] at hc
      rw [hc, if_neg Bool.false_ne_true, repl_go_zero_some_eq]
      exact ⟨_, 1, rfl, Nat.le_refl 1, rfl⟩
  | succ fuel ih =>
    intro iter context calls last
    rw [repl_go_succ_eq]
    set response := gen iter task language context with hresp
    set result := execute_code runner response.code language false with hres
    set evaln := ev iter task language response.code result with heval
    by_cases hc : evaln.goal_achieved = true
    · rw [hc, if_pos rfl]
      exact ⟨_, 1, rfl, Nat.le_refl 1, rfl⟩
    · rw [Bool.not_eq_true] at hc
      rw [hc, if_neg Bool.false_ne_true]
      obtain ⟨out, k, hout, hk, hg⟩ := ih (iter + 1) (next_context response result evaln)
        (calls ++ [iter]) (some (response, result, evaln))
      refine ⟨out, k + 1, hout, by omega, ?_⟩
      rw [append_range'_consume]
      exact hg

/-- Unfolding `repl_loop` to the loop runner. -/
theorem repl_loop_eq (gen : GenOracle) (ev : EvalOracle) (runner : Runner)
    (task language : String) (maxI : Nat) (exs : Option (List CodeExample))
    (start : Nat) (ictx : Option String) :
    repl_loop gen ev runner task language maxI exs start ictx
      = repl_go gen ev runner task language maxI start exs
          (maxI + 1 - start) start (initial_context_of task language exs ictx)
          [] none := rfl

/-! ## Claim theorems: the retry controller -/

/-- Claim C1: for every stub generation/evaluation oracle pair in which the
evaluator first reports success on the Nth attempt (N ≤ max_iterations),
`repl_loop(task, language, max_iterations)` returns an outcome with
`success=true` and `iterations=N`, and the generator is invoked exactly on
attempts 1..N — in particular, exactly N times and never after attempt N. -/
theorem claim1_success_at_nth_attempt (gen : GenOracle) (ev : EvalOracle)
    (runner : Runner) (task language : String) (maxI N : Nat)
    (hN1 : 1 ≤ N) (hN2 : N ≤ maxI)
    (H1 : ∀ i, i < N → ∀ c r, (ev i task language c r).goal_achieved = false)
    (H2 : ∀ c r, (ev N task language c r).goal_achieved = true) :
    ∃ out, repl_loop gen ev runner task language maxI none 1 none = Except.ok out
      ∧ out.success = true ∧ out.iterations = N
      ∧ out.genIters = List.range' 1 N := by
  rw [repl_loop_eq]
  obtain ⟨out, hout, hs, hi, hg⟩ :=
    repl_go_success_at gen ev runner task language maxI 1 none N H1 H2
      (maxI + 1 - 1) 1 (initial_context_of task language none none) [] none
      hN1 (by omega)
  refine ⟨out, hout, hs, hi, ?_⟩
  have hN : N + 1 - 1 = N := by omega
  rw [hg, List.nil_append, hN]

/-- Witness for claim C1 at concrete stub oracles succeeding on attempt 2
of a 3-attempt budget. -/
theorem claim1_witness :
    ∃ out, repl_loop gen0 (ev_at 2) runner_rc0 "t" "python" 3 none 1 none
        = Except.ok out
      ∧ out.success = true ∧ out.iterations = 2
      ∧ out.genIters = List.range' 1 2 :=
  claim1_success_at_nth_attempt gen0 (ev_at 2) runner_rc0 "t" "python" 3 2
    (by decide) (by decide)
    (fun i hi c r => by simp only [ev_at]; simp only [beq_eq_false_iff_ne]; omega)
    (fun _ _ => rfl)

/-- Claim C2: with an evaluator that never reports success,
`repl_loop(max_iterations := 3, start_iteration := 1)` returns
`success=false, iterations=3` and writes a session whose
`current_iteration` is 4 and whose stored `max_iterations` (8) exceeds it;
in general every written session has
`current_iteration = m + 1 ≤ m + 5 = max_iterations`. -/
theorem claim2_budget_exhaustion (gen : GenOracle) (ev : EvalOracle)
    (runner : Runner) (task language : String)
    (H : ∀ i c r, (ev i task language c r).goal_achieved = false) :
    (∃ out s, repl_loop gen ev runner task language 3 none 1 none = Except.ok out
      ∧ out.success = false ∧ out.iterations = 3
      ∧ out.session = some s ∧ s.current_iteration = 4 ∧ s.max_iterations = 8
      ∧ s.current_iteration ≤ s.max_iterations)
    ∧ (∀ m : Nat, 1 ≤ m →
        ∃ out s, repl_loop gen ev runner task language m none 1 none = Except.ok out
          ∧ out.success = false ∧ out.iterations = m
          ∧ out.session = some s ∧ s.current_iteration = m + 1
          ∧ s.max_iterations = m + 5
          ∧ s.current_iteration ≤ s.max_iterations) := by
  have main : ∀ m : Nat, 1 ≤ m →
      ∃ out s, repl_loop gen ev runner task language m none 1 none = Except.ok out
        ∧ out.success = false ∧ out.iterations = m
        ∧ out.session = some s ∧ s.current_iteration = m + 1
        ∧ s.max_iterations = m + 5
        ∧ s.current_iteration ≤ s.max_iterations := by
    intro m hm
    rw [repl_loop_eq]
    have hf : m + 1 - 1 = (m - 1) + 1 := by omega
    rw [hf]
    obtain ⟨out, hout, hs, hi, hg, hsess, hnosess⟩ :=
      repl_go_exhausts gen ev runner task language m 1 none H (m - 1) 1
        (initial_context_of task language none none) [] none
    obtain ⟨s, hsome, hst, hsl, hci, hsm, hsx⟩ := hsess rfl
    exact ⟨out, s, hout, hs, hi, hsome, hci, hsm, by omega⟩
  refine ⟨?_, main⟩
  obtain ⟨out, s, hout, hs, hi, hsome, hci, hsm, hle⟩ := main 3 (by omega)
  exact ⟨out, s, hout, hs, hi, hsome, by omega, by omega, hle⟩

/-- Witness for claim C2 at concrete stub oracles. -/
theorem claim2_witness :
    ∃ out s, repl_loop gen0 ev_never runner_rc0 "t" "python" 3 none 1 none
        = Except.ok out
      ∧ out.success = false ∧ out.iterations = 3
      ∧ out.session = some s ∧ s.current_iteration = 4 ∧ s.max_iterations = 8
      ∧ s.current_iteration ≤ s.max_iterations :=
  (claim2_budget_exhaustion gen0 ev_never runner_rc0 "t" "python"
    (fun _ _ _ => rfl)).1

/-- Claim C7: saving a session and immediately loading it reproduces an
identical task, language, context and current_iteration (indeed the whole
record, with no warning), and resuming from the loaded session drives the
controller loop starting at the saved iteration: the generation trace is a
contiguous range beginning at `current_iteration`, so iteration 1 is never
replayed when the saved iteration is ≥ 2. -/
theorem claim7_session_roundtrip_resume (gen : GenOracle) (ev : EvalOracle)
    (runner : Runner) (t l c gs es : String) (i m : Nat) (xs : List CodeExample) :
    load_session_state (save_session_state t l i m c gs es xs)
      = (some { task := t, language := l, current_iteration := i,
                max_iterations := m, context := c, generator_state := gs,
                evaluator_state := es, examples := xs }, false)
    ∧ (i ≤ m → ∃ out k,
        resume_repl_loop gen ev runner
            { task := t, language := l, current_iteration := i,
              max_iterations := m, context := c, generator_state := gs,
              evaluator_state := es, examples := xs }
          = Except.ok out
        ∧ 1 ≤ k ∧ out.genIters = List.range' i k
        ∧ out.genIters.head? = some i
        ∧ (2 ≤ i → 1 ∉ out.genIters)) := by
  refine ⟨rfl, ?_⟩
  intro him
  have hres : resume_repl_loop gen ev runner
      { task := t, language := l, current_iteration := i, max_iterations := m,
        context := c, generator_state := gs, evaluator_state := es,
        examples := xs }
      = repl_go gen ev runner t l m i (some xs) (m + 1 - i) i
          (initial_context_of t l (some xs) (some c)) [] none := rfl
  rw [hres]
  have hf : m + 1 - i = (m - i) + 1 := by omega
  rw [hf]
  obtain ⟨out, k, hout, hk, hg⟩ :=
    repl_go_runs gen ev runner t l m i (some xs) (m - i) i
      (initial_context_of t l (some xs) (some c)) [] none
  have hg' : out.genIters = List.range' i k := by rw [hg, List.nil_append]
  obtain ⟨k', rfl⟩ : ∃ k', k = k' + 1 := ⟨k - 1, by omega⟩
  refine ⟨out, k' + 1, hout, hk, hg', ?_, ?_⟩
  · rw [hg']; rfl
  · intro h2 hmem
    rw [hg'] at hmem
    have hb := List.mem_range'_1.mp hmem
    omega

/-- Witness for claim C7 at a concrete session resumed from iteration 2
of a 3-iteration budget. -/
theorem claim7_witness :
    ∃ out k, resume_repl_loop gen0 ev_never runner_rc0
        { task := "t", language := "python", current_iteration := 2,
          max_iterations := 3, context := "ctx", generator_state := "g",
          evaluator_state := "e", examples := [] }
      = Except.ok out
      ∧ 1 ≤ k ∧ out.genIters = List.range' 2 k
      ∧ out.genIters.head? = some 2 ∧ (2 ≤ 2 → 1 ∉ out.genIters) :=
  (claim7_session_roundtrip_resume gen0 ev_never runner_rc0
    "t" "python" "ctx" "g" "e" 2 3 []).2 (by omega)

/-- Claim C10: `repl_loop` returns a well-defined outcome only under the
precondition `start_iteration ≤ max_iterations`; when
`start_iteration > max_iterations` the iteration range is empty and the
post-loop code reads the never-assigned `response`, raising `NameError`
instead of returning a failure outcome. -/
theorem claim10_start_beyond_budget (gen : GenOracle) (ev : EvalOracle)
    (runner : Runner) (task language : String) (maxI start : Nat)
    (exs : Option (List CodeExample)) (ictx : Option String) :
    (maxI < start →
      repl_loop gen ev runner task language maxI exs start ictx
        = Except.error "NameError: name response is not defined")
    ∧ (start ≤ maxI →
      ∃ out, repl_loop gen ev runner task language maxI exs start ictx
        = Except.ok out) := by
  constructor
  · intro h
    rw [repl_loop_eq]
    have hf : maxI + 1 - start = 0 := by omega
    rw [hf]
    exact repl_go_zero_none_eq gen ev runner task language maxI start exs start
      (initial_context_of task language exs ictx) []
  · intro h
    rw [repl_loop_eq]
    have hf : maxI + 1 - start = (maxI - start) + 1 := by omega
    rw [hf]
    obtain ⟨out, k, hout, hk, hg⟩ :=
      repl_go_runs gen ev runner task language maxI start exs (maxI - start)
        start (initial_context_of task language exs ictx) [] none
    exact ⟨out, hout⟩

/-- Witness for claim C10 at a concrete call starting beyond the budget. -/
theorem claim10_witness :
    repl_loop gen0 ev_never runner_rc0 "t" "python" 2 none 4 none
      = Except.error "NameError: name response is not defined" :=
  (claim10_start_beyond_budget gen0 ev_never runner_rc0 "t" "python" 2 4
    none none).1 (by omega)

/-! ## Claim theorems: retriever, sanitizer, executors, stores, timeout -/

/-- Claim C3, counterexample: the retriever returns the stored example
"concatenate strings" for the query task "cat" (the code tests Python
substring membership, `"cat" in "concatenate strings"`), yet the two task
texts share no whitespace-delimited token, contradicting the claim that
every returned entry shares at least one such token with the query. -/
theorem claim3_counterexample :
    exConcat ∈ get_relevant_examples [exConcat] "cat" "python" 2
    ∧ spec_sharesToken "cat" exConcat.task = false := by decide

/-- Claim C3 as amended: the retriever returns at most `limit` entries, all
matching the query language case-insensitively, each having some
whitespace-delimited token of the query task as a *substring* of its task
text (not necessarily a shared token), in their original stored order. -/
theorem claim3_retriever_filter (examples : List CodeExample)
    (task language : String) (limit : Nat) :
    (get_relevant_examples examples task language limit).length ≤ limit
    ∧ (∀ ex ∈ get_relevant_examples examples task language limit,
        pyLower ex.language = pyLower language)
    ∧ (∀ ex ∈ get_relevant_examples examples task language limit,
        ∃ w ∈ pySplitWS (pyLower task), strContainsSub (pyLower ex.task) w = true)
    ∧ (get_relevant_examples examples task language limit).Sublist examples := by
  simp only [get_relevant_examples]
  refine ⟨?_, ?_, ?_, ?_⟩
  · rw [List.length_take]; exact Nat.min_le_left _ _
  · intro ex hex
    have hex' := (List.take_sublist _ _).subset hex
    have hp := (List.mem_filter.mp hex').2
    rw [Bool.and_eq_true] at hp
    exact eq_of_beq hp.1
  · intro ex hex
    have hex' := (List.take_sublist _ _).subset hex
    have hp := (List.mem_filter.mp hex').2
    rw [Bool.and_eq_true] at hp
    obtain ⟨w, hw, hsub⟩ := List.any_eq_true.mp hp.2
    exact ⟨w, hw, hsub⟩
  · exact (List.take_sublist _ _).trans (List.filter_sublist _)

/-- Witness for the amended claim C3 at a concrete store and query. -/
theorem claim3_witness :
    (get_relevant_examples [exConcat] "cat" "python" 2).length ≤ 2
    ∧ (∀ ex ∈ get_relevant_examples [exConcat] "cat" "python" 2,
        pyLower ex.language = pyLower "python")
    ∧ (∀ ex ∈ get_relevant_examples [exConcat] "cat" "python" 2,
        ∃ w ∈ pySplitWS (pyLower "cat"), strContainsSub (pyLower ex.task) w = true)
    ∧ (get_relevant_examples [exConcat] "cat" "python" 2).Sublist [exConcat] :=
  claim3_retriever_filter [exConcat] "cat" "python" 2

/-- Claim C4, counterexample: the sanitizer is not idempotent.  Removing the
opening fence of `"```python\n\nhello"` exposes a leading blank line that
the first pass keeps (producing `"\nhello"`) but the second pass strips
(producing `"hello"`). -/
theorem claim4_counterexample :
    clean_code (clean_code "```python\n\nhello" "python") "python"
      ≠ clean_code "```python\n\nhello" "python" := by decide

/-- Claim C4 as amended: `clean(clean(x)) = clean(x)` fails for general
fenced input; what holds is that code the sanitizer leaves unchanged is
returned unchanged by a further cleaning (fixed points stay fixed), for
both sanitizer variants. -/
theorem claim4_clean_fixed_points (x y language : String)
    (hx : clean_code x language = x) (hy : tools_clean_code y = y) :
    clean_code (clean_code x language) language = clean_code x language
    ∧ tools_clean_code (tools_clean_code y) = tools_clean_code y := by
  constructor
  · rw [hx]; exact hx
  · rw [hy]; exact hy

/-- Witness for the amended claim C4 on concrete already-clean inputs. -/
theorem claim4_witness :
    clean_code (clean_code "hello" "python") "python" = clean_code "hello" "python"
    ∧ tools_clean_code (tools_clean_code "x <- 1") = tools_clean_code "x <- 1" :=
  claim4_clean_fixed_points "hello" "x <- 1" "python" (by decide) (by decide)

/-- Claim C5, counterexample: the executor variant in
`src/tools/dspy_repl.py` does not validate the language.  For the
unsupported tag "julia" it runs `Rscript` on the script: the result depends
on the subprocess (so one is spawned), and with exit code 0 it even reports
`success=true, returncode=0` instead of `success=false, returncode=-1`. -/
theorem claim5_counterexample :
    tools_execute_code runner_rc0 "print(1)" "julia" false none
      = { success := true, stdout := "ok", stderr := "", returncode := 0 }
    ∧ tools_execute_code runner_rc1 "print(1)" "julia" false none
      = { success := false, stdout := "", stderr := "boom", returncode := 1 } := by
  decide

/-- Claim C5 as amended: for the executor in `dspy_repl.py`
(`execute_script` / `execute_code`), every language outside
{python, r} (case-insensitive) yields `success=false, returncode=-1` with a
descriptive stderr, and the subprocess oracle is never consulted (the
outcome is independent of it); the `src/tools` variant instead routes every
non-python tag to `Rscript`. -/
theorem claim5_unsupported_language (runner runner' : Runner)
    (path code language : String) (save : Bool)
    (h1 : pyLower language ≠ "python") (h2 : pyLower language ≠ "r") :
    execute_script runner path language
      = Except.ok
          { success := false, stdout := "",
            stderr := "Unsupported language: " ++ language, returncode := -1 }
    ∧ execute_code runner code language save
      = { success := false, stdout := "",
          stderr := "Execution error: Unsupported language: " ++ language,
          returncode := -1 }
    ∧ execute_code runner code language save
      = execute_code runner' code language save := by
  refine ⟨?_, ?_, ?_⟩
  · simp [execute_script, h1, h2]
  · simp [execute_code, write_script, execute_script, h1, h2]
    rw [← String.append_assoc]; rfl
  · simp [execute_code, write_script, execute_script, h1, h2]

/-- Witness for the amended claim C5 at the unsupported tag "julia". -/
theorem claim5_witness :
    execute_script runner_rc0 "tmp_script.R" "julia"
      = Except.ok
          { success := false, stdout := "",
            stderr := "Unsupported language: " ++ "julia", returncode := -1 }
    ∧ execute_code runner_rc0 "x" "julia" false
      = { success := false, stdout := "",
          stderr := "Execution error: Unsupported language: " ++ "julia",
          returncode := -1 }
    ∧ execute_code runner_rc0 "x" "julia" false
      = execute_code runner_rc1 "x" "julia" false :=
  claim5_unsupported_language runner_rc0 runner_rc1 "tmp_script.R" "x" "julia"
    false (by decide) (by decide)

/-- Every completed `execute_script` call satisfies
`success = (returncode == 0)`. -/
theorem execute_script_success_eq (runner : Runner) (path language : String)
    (res : ExecutionResult)
    (h : execute_script runner path language = Except.ok res) :
    res.success = (res.returncode == 0) := by
  unfold execute_script at h
  split at h
  · split at h
    · simp at h
    · injection h with h; subst h; rfl
  · split at h
    · split at h
      · simp at h
      · injection h with h; subst h; rfl
    · injection h with h; subst h; rfl

/-- Claim C6: `execute_code` never raises past its boundary — every raised
exception (modelled by a subprocess oracle answering `Except.error`) is
converted to a well-formed failure result — and in every returned
`ExecutionResult` (of either executor variant) the `success` field equals
`returncode == 0`. -/
theorem claim6_executor_total (runner : Runner) (code language : String)
    (save : Bool) (e : String) :
    ((execute_code runner code language save).success
      = ((execute_code runner code language save).returncode == 0))
    ∧ ((tools_execute_code runner code language save none).success
      = ((tools_execute_code runner code language save none).returncode == 0))
    ∧ ((∀ cmd, runner cmd = Except.error e) →
        (execute_code runner code language save).success = false
        ∧ (execute_code runner code language save).returncode = -1
        ∧ (tools_execute_code runner code language false none).success = false
        ∧ (tools_execute_code runner code language false none).returncode = -1) := by
  refine ⟨?_, ?_, ?_⟩
  · unfold execute_code
    split
    · rfl
    next script_path hws =>
      split
      · rfl
      next res heq => exact execute_script_success_eq runner script_path language res heq
  · unfold tools_execute_code
    cases save
    · simp only [Bool.false_eq_true, if_false]
      split
      · rfl
      · rfl
    · rw [if_pos rfl]; rfl
  · intro hrun
    by_cases hp : pyLower language = "python" <;>
      by_cases hr : pyLower language = "r" <;>
      simp [execute_code, write_script, execute_script, tools_execute_code,
        hp, hr, hrun]

/-- Witness for claim C6: an always-raising subprocess oracle still yields
well-formed failure results from both executor variants. -/
theorem claim6_witness :
    (execute_code runner_raise "x" "python" false).success = false
    ∧ (execute_code runner_raise "x" "python" false).returncode = -1
    ∧ (tools_execute_code runner_raise "x" "python" false none).success = false
    ∧ (tools_execute_code runner_raise "x" "python" false none).returncode = -1 :=
  (claim6_executor_total runner_raise "x" "python" false "OSError").2.2
    (fun _ => rfl)

/-- Claim C8: loading the example store from a missing or malformed file
returns the empty list, and loading the session store from a missing or
corrupt file returns `none`, with a warning surfaced exactly in the
corrupt-session case; both loaders are total (never raise). -/
theorem claim8_store_loaders_tolerant (l : List CodeExample) (s : SessionData) :
    load_examples FileState.missing = []
    ∧ load_examples FileState.corrupt = []
    ∧ load_examples (FileState.valid l) = l
    ∧ load_session_state FileState.missing = (none, false)
    ∧ load_session_state FileState.corrupt = (none, true)
    ∧ load_session_state (FileState.valid s) = (some s, false) :=
  ⟨rfl, rfl, rfl, rfl, rfl, rfl⟩

/-- Claim C9, counterexample: when the 180-second timeout of the only
timeout-configured executor (`run_r_script`) expires, the function does not
return a `success=false, returncode=-1` result — it propagates the
`TimeoutExpired` exception raised by `subprocess.run`. -/
theorem claim9_counterexample :
    run_r_script runner_timeout { task_name := "pk analysis" }
        { thoughts := "t", script := "x <- 1", status_complete := false }
      = Except.error
          "subprocess.TimeoutExpired: Rscript timed out after 180 seconds" := rfl

/-- Claim C9 as amended: on expiry of the configured 180-second timeout,
`subprocess.run` kills the child (a library guarantee) and raises
`TimeoutExpired`, which `run_r_script` propagates to its caller instead of
converting it into an `ExecutionResult`; the `dspy_repl.py` executors
configure no timeout at all. -/
theorem claim9_timeout_propagates (runner : TimeoutRunner) (task : RTask)
    (response : ScriptResponse)
    (h : runner ["Rscript", (task.task_name.replace " " "_") ++ "_analysis.R"] 180
      = TimeoutRun.timedOut) :
    run_r_script runner task response
      = Except.error
          "subprocess.TimeoutExpired: Rscript timed out after 180 seconds" := by
  simp only [run_r_script]
  rw [h]

/-- Witness for the amended claim C9 at a concrete always-timing-out
subprocess oracle. -/
theorem claim9_witness :
    run_r_script runner_timeout { task_name := "a b" }
        { thoughts := "", script := "y", status_complete := true }
      = Except.error
          "subprocess.TimeoutExpired: Rscript timed out after 180 seconds" :=
  claim9_timeout_propagates runner_timeout { task_name := "a b" }
    { thoughts := "", script := "y", status_complete := true } rfl

